import Mathlib

/-!
Shallow embedding of the Lead Prioritization & SLA Scoring engine of
`project_x_singlefile.py` (with the tier logic duplicated in
`priority_component.py`), and proofs about it.

Modelling conventions:
* Python floats are modelled as `ℚ`; `datetime` values are modelled as a
  rational number of hours since an arbitrary epoch, so that
  `timedelta(hours=h)` is addition of `h` and
  `(a - b).total_seconds()/3600.0` is plain subtraction `a - b`.
* A field that may be absent (`None`), hold a parsable value, or hold a
  truthy string that fails parsing/conversion is modelled by a small
  inductive type (`PyTime`, `PyIntField`); Python's `x or y` fallback on
  falsy values is modelled explicitly in each resolver.
* `weights` is the session dictionary created in the sidebar
  (`project_x_singlefile.py` lines 361-369); it always carries all seven
  keys, so it is modelled as a total structure.  The `.get(key, default)`
  defaults in `compute_priority_for_lead_row` coincide with the session
  defaults.
-/

namespace ProjectX

/-- A `datetime`-valued cell as it reaches the scoring code: absent (`None`,
falsy in Python), a proper timestamp (modelled in hours), or a truthy string
on which `datetime.fromisoformat` raises (`badstr`). -/
inductive PyTime where
  | none
  | time (t : ℚ)
  | badstr
  deriving DecidableEq

/-- The `sla_hours` cell: absent, an integer (note `0` is falsy for `or`),
or a truthy value on which `int(...)` raises (e.g. a non-numeric string). -/
inductive PyIntField where
  | none
  | intVal (n : ℤ)
  | invalid
  deriving DecidableEq

/-- `LeadStatus.AWARDED` (`project_x_singlefile.py` line 55). -/
def AWARDED : String := "Awarded"

/-- The fields of a row of `leads_df` that the scoring, ranking and KPI code
reads.  Display-only columns (contact data, notes, damage type, ...) are
omitted: no claim and no scored quantity depends on them. -/
structure LeadRow where
  id : ℤ
  estimated_value : ℚ
  created_at : PyTime
  sla_entered_at : PyTime
  sla_hours : PyIntField
  contacted : Bool
  inspection_scheduled : Bool
  estimate_submitted : Bool
  qualified : Bool
  status : String
  awarded_date : PyTime
  deriving DecidableEq

/-- The `st.session_state.weights` dictionary (lines 361-369): all seven
keys are present. -/
structure Weights where
  value_weight : ℚ
  sla_weight : ℚ
  urgency_weight : ℚ
  contacted_w : ℚ
  inspection_w : ℚ
  estimate_w : ℚ
  value_baseline : ℚ
  deriving DecidableEq

/-- The session defaults of lines 362-369 (also the `.get` defaults inside
`compute_priority_for_lead_row`). -/
def default_weights : Weights :=
  { value_weight := 1/2
    sla_weight := 7/20
    urgency_weight := 3/20
    contacted_w := 3/5
    inspection_w := 1/2
    estimate_w := 1/2
    value_baseline := 5000 }

/-- Lines 248-253: `sla_entered = row.get("sla_entered_at") or
row.get("created_at") or datetime.utcnow()`, then a string value is parsed
with `datetime.fromisoformat`, falling back to `datetime.utcnow()` when the
parse raises.  A truthy unparsable string short-circuits the `or` chain and
then falls back to `now`. -/
def resolve_sla_entered (sla_entered_at created_at : PyTime) (now : ℚ) : ℚ :=
  match sla_entered_at with
  | .time t => t
  | .badstr => now
  | .none =>
    match created_at with
    | .time t => t
    | .badstr => now
    | .none => now

/-- `int(x or 24)`: `None` and `0` are falsy and give `24`; a truthy value
that `int` cannot convert raises, which the caller may or may not catch. -/
def py_int_or_24 : PyIntField → Option ℤ
  | .none => some 24
  | .intVal 0 => some 24
  | .intVal n => some n
  | .invalid => Option.none

/-- Lines 254-258: the `try` block computes
`deadline = sla_entered + timedelta(hours=int(row.get("sla_hours") or 24))`
and `time_left_h = max((deadline - utcnow()).total_seconds()/3600.0, 0.0)`;
when the `int` conversion raises, the `except` arm sets
`time_left_h = 9999.0`. -/
def time_left_of (row : LeadRow) (now : ℚ) : ℚ :=
  match py_int_or_24 row.sla_hours with
  | some h =>
      max (resolve_sla_entered row.sla_entered_at row.created_at now + (h : ℚ) - now) 0
  | Option.none => 9999

/-- Line 247: `value_score = min(1.0, val / max(1.0, baseline))`. -/
def value_score_of (val baseline : ℚ) : ℚ := min 1 (val / max 1 baseline)

/-- Line 259: `sla_score = max(0.0, (72.0 - min(time_left_h, 72.0)) / 72.0)`. -/
def sla_score_of (time_left_h : ℚ) : ℚ := max 0 ((72 - min time_left_h 72) / 72)

/-- Lines 260-265: each unmet engagement flag contributes its configured
sub-weight; a met flag contributes `0`. -/
def urgency_component_of (row : LeadRow) (w : Weights) : ℚ :=
  (if row.contacted then 0 else 1) * w.contacted_w
  + (if row.inspection_scheduled then 0 else 1) * w.inspection_w
  + (if row.estimate_submitted then 0 else 1) * w.estimate_w

/-- Lines 266-270: the sum of the three top-level weights, replaced by `1`
when it is `≤ 0`. -/
def total_weight_of (w : Weights) : ℚ :=
  let tw := w.value_weight + w.sla_weight + w.urgency_weight
  if tw ≤ 0 then 1 else tw

/-- `compute_priority_for_lead_row` (lines 240-275): returns the clamped
score and `time_left_h`.  The `try`/`except` around
`float(row.get("estimated_value") or 0.0)` is resolved upstream: the
`estimated_value` column of `leads_df` is already a float (line 196). -/
def compute_priority_for_lead_row (row : LeadRow) (w : Weights) (now : ℚ) : ℚ × ℚ :=
  let value_score := value_score_of row.estimated_value w.value_baseline
  let time_left_h := time_left_of row now
  let sla_score := sla_score_of time_left_h
  let urgency_component := urgency_component_of row w
  let score := (value_score * w.value_weight + sla_score * w.sla_weight
      + urgency_component * w.urgency_weight) / total_weight_of w
  (max 0 (min 1 score), time_left_h)

/-- The urgency tier rendered for a score. -/
inductive Tier where
  | CRITICAL
  | HIGH
  | NORMAL
  deriving DecidableEq

/-- Lines 638-646 of `project_x_singlefile.py`: `if score >= 0.7` →
CRITICAL, `elif score >= 0.45` → HIGH, else NORMAL. -/
def priority_label (score : ℚ) : Tier :=
  if score ≥ 7/10 then .CRITICAL
  else if score ≥ 9/20 then .HIGH
  else .NORMAL

/-- Lines 69-77 of `priority_component.py`: the same threshold logic,
duplicated in the standalone component. -/
def component_priority_label (score : ℚ) : Tier :=
  if score ≥ 7/10 then .CRITICAL
  else if score ≥ 9/20 then .HIGH
  else .NORMAL

/-- One entry of `priority_list` (lines 602-627): the fields that drive
sorting, ranking and identity.  The loop body also recomputes the deadline
and stores display fields (contact name, value, overdue flag, ...), none of
which affect the ordering; they are omitted. -/
structure PriorityItem where
  id : ℤ
  priority_score : ℚ
  deriving DecidableEq

/-- One pass of the loop body building `priority_list` (lines 603-627). -/
def priority_item_of (row : LeadRow) (w : Weights) (now : ℚ) : PriorityItem :=
  { id := row.id
    priority_score := (compute_priority_for_lead_row row w now).1 }

/-- The `priority_list` built by iterating over the snapshot (lines 602-627). -/
def build_priority_list (df : List LeadRow) (w : Weights) (now : ℚ) : List PriorityItem :=
  df.map (fun row => priority_item_of row w now)

/-- One insertion step of numpy's argsort in its insertion-sort regime: the
new element is shifted left past every element with a strictly greater key,
so it lands after all elements with key `≤` its own (stable). -/
def np_ins (a : PriorityItem) : List PriorityItem → List PriorityItem
  | [] => [a]
  | b :: t => if b.priority_score < a.priority_score then b :: np_ins a t else a :: b :: t

/-- numpy `argsort(kind="quicksort")` in its insertion-sort regime:
numpy's introsort partitions only while the slice is longer than 16 elements
and handles shorter slices by the insertion sort modelled in `np_ins`, so
for frames of at most 16 rows the argsort is exactly this stable ascending
insertion sort.  On longer frames numpy partitions, and the partition swaps
scramble the relative order of equal keys: this model then still produces
SOME correctly sorted permutation (as numpy does), but its tie order is no
longer the program's.  Consequently, conclusions about tie order are drawn
from this definition only under an explicit `length ≤ 16` hypothesis;
order-independent conclusions (being a permutation, being sorted, output
length) hold of any correct sort and need no such bound. -/
def np_argsort_asc : List PriorityItem → List PriorityItem
  | [] => []
  | a :: t => np_ins a (np_argsort_asc t)

/-- Line 628: `pd.DataFrame(priority_list).sort_values("priority_score",
ascending=False)`.  pandas (`pandas.core.sorting.nargsort`) computes an
ascending argsort with the requested kind and, for `ascending=False`,
reverses the resulting index array; the rows are then taken in that index
order. -/
def sort_values_desc (l : List PriorityItem) : List PriorityItem :=
  (np_argsort_asc l).reverse

/-- Lines 630-634 (`pr_df.head(8)` over the sorted frame) and
`priority_component.py` lines 53-58 (`priority_df.head(8)` with an early
return on an empty frame): the ranker's output. -/
def rank8 (df : List LeadRow) (w : Weights) (now : ℚ) : List PriorityItem :=
  (sort_values_desc (build_priority_list df w now)).take 8

/-- Line 470 in `compute_sla_metrics`: `int(r.get("sla_hours") or 24)` with
no surrounding `try`.  The `sla_hours` column of `leads_df` comes from an
Integer ORM column (line 97), so only `none`/`intVal` occur there; the
`invalid` case (on which Python would raise) is totalized with the same
default `24` and is unreachable on real frames. -/
def kpi_sla_hours (v : PyIntField) : ℤ :=
  match py_int_or_24 v with
  | some h => h
  | Option.none => 24

/-- Lines 463-471: the resolved SLA entry time plus
`timedelta(hours=sla_hours)`. -/
def deadline_of (r : LeadRow) (now : ℚ) : ℚ :=
  resolve_sla_entered r.sla_entered_at r.created_at now + (kpi_sla_hours r.sla_hours : ℚ)

/-- One element of the `rows` list built inside `compute_sla_metrics`
(lines 462-480).  Line 474: `breached = (datetime.utcnow() > deadline) and
not bool(r.get("contacted"))` — note the strict comparison. -/
structure SlaRowSummary where
  id : ℤ
  contacted : Bool
  breached : Bool
  sla_hours : ℤ
  deriving DecidableEq

/-- The loop body of `compute_sla_metrics` (lines 462-480). -/
def sla_row_summary (r : LeadRow) (now : ℚ) : SlaRowSummary :=
  { id := r.id
    contacted := r.contacted
    breached := decide (deadline_of r now < now) && !r.contacted
    sla_hours := kpi_sla_hours r.sla_hours }

/-- The dictionary returned by `compute_sla_metrics`. -/
structure SlaMetrics where
  sla_success_pct : ℚ
  sla_breach_rate : ℚ
  avg_time_to_first_contact : ℚ
  deriving DecidableEq

/-- `compute_sla_metrics` (lines 461-495): the empty snapshot returns all
zeroes; otherwise the contacted and breached fractions times 100, and the
placeholder average time-to-first-contact. -/
def compute_sla_metrics (df : List LeadRow) (now : ℚ) : SlaMetrics :=
  let rows := df.map (fun r => sla_row_summary r now)
  let total := rows.length
  if total = 0 then
    { sla_success_pct := 0, sla_breach_rate := 0, avg_time_to_first_contact := 0 }
  else
    let contacted_count := (rows.filter (fun x => x.contacted)).length
    let breached_count := (rows.filter (fun x => x.breached)).length
    { sla_success_pct := ((contacted_count : ℚ) / (total : ℚ)) * 100
      sla_breach_rate := ((breached_count : ℚ) / (total : ℚ)) * 100
      avg_time_to_first_contact :=
        ((rows.filter (fun x => x.contacted)).map (fun x => (x.sla_hours : ℚ))).sum
          / (max 1 (contacted_count : ℚ)) / 2 }

/-- Lines 500-502: count of leads with `qualified == True` (the code's
`if qual_total else 0` guard changes nothing: the count is `0` anyway on an
empty frame). -/
def qual_count (df : List LeadRow) : ℕ := (df.filter (fun r => r.qualified)).length

/-- Line 505: count of leads with `inspection_scheduled == True`. -/
def inspected_booked (df : List LeadRow) : ℕ :=
  (df.filter (fun r => r.inspection_scheduled)).length

/-- Line 510: count of leads with `estimate_submitted == True`. -/
def est_sub_count (df : List LeadRow) : ℕ :=
  (df.filter (fun r => r.estimate_submitted)).length

/-- Line 511: count of leads with `status == LeadStatus.AWARDED`. -/
def awarded_count (df : List LeadRow) : ℕ :=
  (df.filter (fun r => decide (r.status = AWARDED))).length

/-- Line 502: `qual_rate = (qual_count / qual_total * 100) if qual_total
else 0.0`. -/
def qual_rate (df : List LeadRow) : ℚ :=
  if df.length = 0 then 0 else (qual_count df : ℚ) / (df.length : ℚ) * 100

/-- Line 506: `inspection_conversion = (inspected_booked / qual_count * 100)
if qual_count else 0.0`. -/
def inspection_conversion (df : List LeadRow) : ℚ :=
  if qual_count df = 0 then 0
  else (inspected_booked df : ℚ) / (qual_count df : ℚ) * 100

/-- Line 512: `estimate_win_rate = (awarded_count / est_sub_count * 100) if
est_sub_count else 0.0`. -/
def estimate_win_rate (df : List LeadRow) : ℚ :=
  if est_sub_count df = 0 then 0
  else (awarded_count df : ℚ) / (est_sub_count df : ℚ) * 100

/-- Lines 520-527: a timestamp with the string-parse fallback to
`datetime.utcnow()`.  `created_at` has an ORM default (line 96) and is never
absent in `leads_df`; the model totalizes the absent case with `now`. -/
def py_time_or_now (t : PyTime) (now : ℚ) : ℚ :=
  match t with
  | .time v => v
  | .badstr => now
  | .none => now

/-- Lines 518-528: one entry of `times` — present exactly when the lead is
AWARDED with a recorded `awarded_date`; the value is
`max(0.0, (awd - created).total_seconds()/3600.0)`. -/
def award_delta_hours (r : LeadRow) (now : ℚ) : Option ℚ :=
  if r.status = AWARDED ∧ r.awarded_date ≠ PyTime.none then
    some (max 0 (py_time_or_now r.awarded_date now - py_time_or_now r.created_at now))
  else Option.none

/-- Line 529: `conv_velocity = (sum(times) / len(times)) if times else 0.0`. -/
def conv_velocity (df : List LeadRow) (now : ℚ) : ℚ :=
  let times := df.filterMap (fun r => award_delta_hours r now)
  if times.length = 0 then 0 else times.sum / (times.length : ℚ)

/-- The named KPI rates of the Pipeline Board (lines 461-529) gathered into
one snapshot value. -/
structure KPISnapshot where
  sla_success_pct : ℚ
  sla_breach_rate : ℚ
  qual_rate : ℚ
  inspection_conversion : ℚ
  estimate_win_rate : ℚ
  conv_velocity : ℚ
  deriving DecidableEq

/-- The KPI aggregator: the rates of `compute_sla_metrics` together with the
four inline rate computations of lines 500-529, all over one snapshot. -/
def aggregate (df : List LeadRow) (now : ℚ) : KPISnapshot :=
  let m := compute_sla_metrics df now
  { sla_success_pct := m.sla_success_pct
    sla_breach_rate := m.sla_breach_rate
    qual_rate := qual_rate df
    inspection_conversion := inspection_conversion df
    estimate_win_rate := estimate_win_rate df
    conv_velocity := conv_velocity df now }

/-- The SPEC's breach-rate formula, written from the spec's words for
comparison with the source-side `compute_sla_metrics`: count of leads where
`(now ≥ deadline) AND NOT contacted`, divided by total, times 100. -/
def sla_breach_rate_spec (df : List LeadRow) (now : ℚ) : ℚ :=
  if df.length = 0 then 0
  else ((df.filter (fun r => decide (deadline_of r now ≤ now) && !r.contacted)).length : ℚ)
        / (df.length : ℚ) * 100

/-- A demo lead used to instantiate theorems at concrete inputs: high value,
never contacted, entered its SLA window at time 0. -/
def demoLead : LeadRow :=
  { id := 1
    estimated_value := 9000
    created_at := .time 0
    sla_entered_at := .time 0
    sla_hours := .intVal 24
    contacted := false
    inspection_scheduled := false
    estimate_submitted := false
    qualified := false
    status := "New"
    awarded_date := .none }

/-- A never-contacted lead whose 24-hour SLA deadline falls exactly at time
`24`. -/
def boundaryLead : LeadRow :=
  { id := 7
    estimated_value := 0
    created_at := .time 0
    sla_entered_at := .time 0
    sla_hours := .intVal 24
    contacted := false
    inspection_scheduled := false
    estimate_submitted := false
    qualified := false
    status := "New"
    awarded_date := .none }

/-- `demoLead` with an `sla_hours` cell that `int(...)` cannot convert. -/
def invalidSlaLead : LeadRow := { demoLead with sla_hours := PyIntField.invalid }

/-- The default weights with the three top-level weights set to zero. -/
def zero_top_weights : Weights :=
  { default_weights with value_weight := 0, sla_weight := 0, urgency_weight := 0 }

/-- The default weights with only the flag-urgency weight set to zero. -/
def zero_urgency_weights : Weights := { default_weights with urgency_weight := 0 }

end ProjectX

namespace ProjectX

/-- Inserting with `np_ins` yields a permutation of consing. -/
theorem np_ins_perm (a : PriorityItem) : ∀ l : List PriorityItem, (np_ins a l).Perm (a :: l)
  | [] => List.Perm.refl _
  | b :: t => by
    rw [np_ins]
    split
    · exact ((np_ins_perm a t).cons b).trans (List.Perm.swap a b t)
    · exact List.Perm.refl _

/-- The modelled argsort permutes its input. -/
theorem np_argsort_asc_perm : ∀ l : List PriorityItem, (np_argsort_asc l).Perm l
  | [] => List.Perm.refl _
  | a :: t => (np_ins_perm a (np_argsort_asc t)).trans ((np_argsort_asc_perm t).cons a)

end ProjectX

namespace ProjectX

/-- Claim C1: for every lead record and weights configuration, the scorer
returns a score in the closed interval `[0,1]` and a remaining-time value
`≥ 0`. -/
theorem C1_score_bounded_time_nonneg (row : LeadRow) (w : Weights) (now : ℚ) :
    0 ≤ (compute_priority_for_lead_row row w now).1
    ∧ (compute_priority_for_lead_row row w now).1 ≤ 1
    ∧ 0 ≤ (compute_priority_for_lead_row row w now).2 := by
  refine ⟨le_max_left 0 _, max_le zero_le_one (min_le_left 1 _), ?_⟩
  show 0 ≤ time_left_of row now
  unfold time_left_of
  cases py_int_or_24 row.sla_hours with
  | none => norm_num
  | some h => exact le_max_right _ 0

/-- Claim C3: the classifier maps `s` to CRITICAL iff `s ≥ 0.70`, to HIGH
iff `0.45 ≤ s < 0.70`, and to NORMAL iff `s < 0.45`; both duplicated
implementations agree. -/
theorem C3_classifier_thresholds (s : ℚ) :
    (priority_label s = Tier.CRITICAL ↔ 7/10 ≤ s)
    ∧ (priority_label s = Tier.HIGH ↔ 9/20 ≤ s ∧ s < 7/10)
    ∧ (priority_label s = Tier.NORMAL ↔ s < 9/20)
    ∧ component_priority_label s = priority_label s := by
  unfold priority_label component_priority_label
  split_ifs with h1 h2 <;>
    refine ⟨?_, ?_, ?_, rfl⟩ <;> simp_all <;> first | linarith | intro h; linarith

/-- Claim C4: with all three top-level weights zero, the score is `0`
regardless of the lead's value, SLA state or engagement flags. -/
theorem C4_zero_weights_score_zero (row : LeadRow) (w : Weights) (now : ℚ)
    (hv : w.value_weight = 0) (hs : w.sla_weight = 0) (hu : w.urgency_weight = 0) :
    (compute_priority_for_lead_row row w now).1 = 0 := by
  show max 0 (min 1 _) = 0
  rw [hv, hs, hu]
  norm_num [total_weight_of, hv, hs, hu]

/-- Witness for C4: the concrete high-value, never-contacted `demoLead`
still scores `0` under all-zero top-level weights. -/
theorem C4_zero_weights_score_zero_witness :
    (compute_priority_for_lead_row demoLead zero_top_weights 0).1 = 0 :=
  C4_zero_weights_score_zero demoLead zero_top_weights 0 rfl rfl rfl

end ProjectX

namespace ProjectX

/-- Claim C5 counterexample: a never-contacted lead whose deadline equals
`now` exactly is NOT counted as breached by the code (strict `>` on line
474), while the spec's `now ≥ deadline` formula counts it: the two rates
differ at this snapshot. -/
theorem C5_boundary_counterexample :
    (compute_sla_metrics [boundaryLead] 24).sla_breach_rate = 0
    ∧ sla_breach_rate_spec [boundaryLead] 24 = 100 := by
  have hd : deadline_of boundaryLead 24 = 24 := by
    norm_num [deadline_of, resolve_sla_entered, kpi_sla_hours, py_int_or_24, boundaryLead]
  constructor
  · have hb : (sla_row_summary boundaryLead 24).breached = false := by
      show (decide (deadline_of boundaryLead 24 < 24) && !boundaryLead.contacted) = false
      rw [hd]
      simp
    simp [compute_sla_metrics, List.filter_cons, hb]
  · have hc : boundaryLead.contacted = false := rfl
    rw [sla_breach_rate_spec]
    have hfil : ([boundaryLead].filter
        (fun r => decide (deadline_of r 24 ≤ 24) && !r.contacted)) = [boundaryLead] := by
      rw [List.filter_cons, List.filter_nil]
      simp [hd, hc]
    rw [hfil]
    norm_num

/-- Claim C5 as amended: the SLA breach rate equals the number of leads with
`now > deadline` (strictly) that were not contacted, divided by the total,
times 100; the boundary lead with `deadline = now` is not breached. -/
theorem C5_breach_rate_strict (df : List LeadRow) (now : ℚ) (h : df ≠ []) :
    (compute_sla_metrics df now).sla_breach_rate
      = ((df.filter (fun r => decide (deadline_of r now < now) && !r.contacted)).length : ℚ)
          / (df.length : ℚ) * 100 := by
  have hne : df.length ≠ 0 := fun hl => h (List.length_eq_zero.mp hl)
  rw [compute_sla_metrics]
  simp only [List.length_map, if_neg hne]
  have hfil : (df.map (fun r => sla_row_summary r now)).filter (fun x => x.breached)
      = (df.filter (fun r => decide (deadline_of r now < now) && !r.contacted)).map
          (fun r => sla_row_summary r now) := by
    rw [List.filter_map]
    rfl
  rw [hfil, List.length_map]

/-- Witness for C5's amended theorem at the concrete boundary snapshot. -/
theorem C5_breach_rate_strict_witness :
    ([boundaryLead] : List LeadRow) ≠ []
    ∧ (compute_sla_metrics [boundaryLead] 24).sla_breach_rate
        = (([boundaryLead].filter
              (fun r => decide (deadline_of r 24 < 24) && !r.contacted)).length : ℚ)
            / (([boundaryLead] : List LeadRow).length : ℚ) * 100 :=
  ⟨by simp, C5_breach_rate_strict [boundaryLead] 24 (by simp)⟩

/-- Claim C6: the ranker returns the first 8 results; with fewer than 8
leads it returns the whole sorted list, and the empty snapshot yields the
empty sequence. -/
theorem C6_rank_top8 (df : List LeadRow) (w : Weights) (now : ℚ) :
    (rank8 df w now).length = min 8 df.length
    ∧ (df.length ≤ 8 → rank8 df w now = sort_values_desc (build_priority_list df w now))
    ∧ rank8 [] w now = [] := by
  have hlen : (sort_values_desc (build_priority_list df w now)).length = df.length := by
    rw [sort_values_desc, List.length_reverse, (np_argsort_asc_perm _).length_eq,
      build_priority_list, List.length_map]
  refine ⟨?_, ?_, rfl⟩
  · rw [rank8, List.length_take, hlen]
  · intro h
    rw [rank8, List.take_of_length_le (by rw [hlen]; exact h)]

/-- Witness for C6 at a one-lead snapshot and the empty snapshot. -/
theorem C6_rank_top8_witness :
    (rank8 [demoLead] default_weights 0).length = min 8 1
    ∧ ([demoLead] : List LeadRow).length ≤ 8
    ∧ rank8 [demoLead] default_weights 0
        = sort_values_desc (build_priority_list [demoLead] default_weights 0)
    ∧ rank8 [] default_weights 0 = [] := by
  obtain ⟨h1, h2, h3⟩ := C6_rank_top8 [demoLead] default_weights 0
  exact ⟨h1, by simp, h2 (by simp), h3⟩

/-- Claim C7: between two leads identical except in `estimated_value`, both
values strictly below the baseline, the larger value yields a strictly
larger `value_score` and (with a non-negative value weight) a total score at
least as large. -/
theorem C7_value_monotonicity (row : LeadRow) (w : Weights) (now : ℚ) (v1 v2 : ℚ)
    (hw : 0 ≤ w.value_weight) (h1 : v1 < w.value_baseline) (h2 : v2 < w.value_baseline)
    (h12 : v1 < v2) :
    value_score_of v1 w.value_baseline < value_score_of v2 w.value_baseline
    ∧ (compute_priority_for_lead_row { row with estimated_value := v1 } w now).1
        ≤ (compute_priority_for_lead_row { row with estimated_value := v2 } w now).1 := by
  have hm : (0:ℚ) < max 1 w.value_baseline := lt_of_lt_of_le zero_lt_one (le_max_left 1 _)
  have hv1 : v1 < max 1 w.value_baseline := lt_of_lt_of_le h1 (le_max_right 1 _)
  have hv2 : v2 < max 1 w.value_baseline := lt_of_lt_of_le h2 (le_max_right 1 _)
  have hvs : value_score_of v1 w.value_baseline < value_score_of v2 w.value_baseline := by
    rw [value_score_of, value_score_of,
      min_eq_right (le_of_lt ((div_lt_one hm).mpr hv1)),
      min_eq_right (le_of_lt ((div_lt_one hm).mpr hv2))]
    gcongr
  refine ⟨hvs, ?_⟩
  have htw : 0 < total_weight_of w := by
    show 0 < if w.value_weight + w.sla_weight + w.urgency_weight ≤ 0 then (1:ℚ)
        else w.value_weight + w.sla_weight + w.urgency_weight
    split_ifs with h
    · exact zero_lt_one
    · exact not_le.mp h
  have hnum : value_score_of v1 w.value_baseline * w.value_weight
        + sla_score_of (time_left_of row now) * w.sla_weight
        + urgency_component_of row w * w.urgency_weight
      ≤ value_score_of v2 w.value_baseline * w.value_weight
        + sla_score_of (time_left_of row now) * w.sla_weight
        + urgency_component_of row w * w.urgency_weight := by
    have := mul_le_mul_of_nonneg_right (le_of_lt hvs) hw
    linarith
  show max 0 (min 1 ((value_score_of v1 w.value_baseline * w.value_weight
        + sla_score_of (time_left_of row now) * w.sla_weight
        + urgency_component_of row w * w.urgency_weight) / total_weight_of w))
      ≤ max 0 (min 1 ((value_score_of v2 w.value_baseline * w.value_weight
        + sla_score_of (time_left_of row now) * w.sla_weight
        + urgency_component_of row w * w.urgency_weight) / total_weight_of w))
  exact max_le_max le_rfl (min_le_min le_rfl ((div_le_div_iff_of_pos_right htw).mpr hnum))

/-- Witness for C7 at `demoLead` under the default weights with values 1000
and 2000 (both below the 5000 baseline). -/
theorem C7_value_monotonicity_witness :
    (0:ℚ) ≤ default_weights.value_weight
    ∧ (1000:ℚ) < default_weights.value_baseline
    ∧ (2000:ℚ) < default_weights.value_baseline
    ∧ (1000:ℚ) < 2000
    ∧ value_score_of 1000 default_weights.value_baseline
        < value_score_of 2000 default_weights.value_baseline
    ∧ (compute_priority_for_lead_row { demoLead with estimated_value := 1000 }
          default_weights 0).1
        ≤ (compute_priority_for_lead_row { demoLead with estimated_value := 2000 }
          default_weights 0).1 := by
  obtain ⟨hs, ht⟩ := C7_value_monotonicity demoLead default_weights 0 1000 2000
    (by norm_num [default_weights]) (by norm_num [default_weights])
    (by norm_num [default_weights]) (by norm_num)
  exact ⟨by norm_num [default_weights], by norm_num [default_weights],
    by norm_num [default_weights], by norm_num, hs, ht⟩

/-- Claim C8: with `urgency_weight = 0`, setting all three engagement flags
true yields the same score as setting all three false, all else fixed. -/
theorem C8_flags_irrelevant_when_urgency_zero (row : LeadRow) (w : Weights) (now : ℚ)
    (hu : w.urgency_weight = 0) :
    (compute_priority_for_lead_row
        { row with contacted := true, inspection_scheduled := true,
                   estimate_submitted := true } w now).1
      = (compute_priority_for_lead_row
        { row with contacted := false, inspection_scheduled := false,
                   estimate_submitted := false } w now).1 := by
  show max 0 (min 1 ((value_score_of row.estimated_value w.value_baseline * w.value_weight
        + sla_score_of (time_left_of row now) * w.sla_weight
        + urgency_component_of
            { row with contacted := true, inspection_scheduled := true,
                       estimate_submitted := true } w * w.urgency_weight)
          / total_weight_of w))
      = max 0 (min 1 ((value_score_of row.estimated_value w.value_baseline * w.value_weight
        + sla_score_of (time_left_of row now) * w.sla_weight
        + urgency_component_of
            { row with contacted := false, inspection_scheduled := false,
                       estimate_submitted := false } w * w.urgency_weight)
          / total_weight_of w))
  rw [hu, mul_zero, mul_zero]

/-- Witness for C8 at `demoLead` under the default weights with the
flag-urgency weight zeroed. -/
theorem C8_flags_irrelevant_witness :
    zero_urgency_weights.urgency_weight = 0
    ∧ (compute_priority_for_lead_row
        { demoLead with contacted := true, inspection_scheduled := true,
                        estimate_submitted := true } zero_urgency_weights 0).1
      = (compute_priority_for_lead_row
        { demoLead with contacted := false, inspection_scheduled := false,
                        estimate_submitted := false } zero_urgency_weights 0).1 :=
  ⟨rfl, C8_flags_irrelevant_when_urgency_zero demoLead zero_urgency_weights 0 rfl⟩

/-- Claim C9: the empty snapshot yields every KPI rate equal to 0 (not an
error), and each denominator-of-zero case in a rate yields 0. -/
theorem C9_kpi_zero_guards (df : List LeadRow) (now : ℚ) :
    aggregate [] now
      = { sla_success_pct := 0, sla_breach_rate := 0, qual_rate := 0,
          inspection_conversion := 0, estimate_win_rate := 0, conv_velocity := 0 }
    ∧ (df.length = 0 → (aggregate df now).qual_rate = 0
        ∧ (aggregate df now).sla_success_pct = 0
        ∧ (aggregate df now).sla_breach_rate = 0)
    ∧ (qual_count df = 0 → (aggregate df now).inspection_conversion = 0)
    ∧ (est_sub_count df = 0 → (aggregate df now).estimate_win_rate = 0)
    ∧ (df.filterMap (fun r => award_delta_hours r now) = []
        → (aggregate df now).conv_velocity = 0) := by
  refine ⟨?_, ?_, ?_, ?_, ?_⟩
  · simp [aggregate, compute_sla_metrics, qual_rate, inspection_conversion,
      estimate_win_rate, conv_velocity, qual_count, est_sub_count]
  · intro h
    have hnil : df = [] := List.length_eq_zero.mp h
    subst hnil
    refine ⟨by simp [aggregate, qual_rate], ?_, ?_⟩ <;>
      simp [aggregate, compute_sla_metrics]
  · intro h
    simp [aggregate, inspection_conversion, h]
  · intro h
    simp [aggregate, estimate_win_rate, h]
  · intro h
    simp [aggregate, conv_velocity, h]

/-- Witness for C9 at the empty snapshot, discharging every zero-denominator
hypothesis there. -/
theorem C9_kpi_zero_guards_witness :
    (aggregate [] 0).qual_rate = 0
    ∧ (aggregate [] 0).sla_success_pct = 0
    ∧ (aggregate [] 0).sla_breach_rate = 0
    ∧ (aggregate [] 0).inspection_conversion = 0
    ∧ (aggregate [] 0).estimate_win_rate = 0
    ∧ (aggregate [] 0).conv_velocity = 0 := by
  obtain ⟨-, h2, h3, h4, h5⟩ := C9_kpi_zero_guards ([] : List LeadRow) 0
  obtain ⟨hq, hs, hb⟩ := h2 rfl
  exact ⟨hq, hs, hb, h3 rfl, h4 rfl, h5 rfl⟩

/-- Claim C10: when the `sla_hours` cell is present but not convertible to
an integer, the scorer neither raises nor applies the 24-hour default: it
returns remaining time 9999.0, on which the SLA score is 0. -/
theorem C10_invalid_sla_hours (row : LeadRow) (w : Weights) (now : ℚ)
    (h : row.sla_hours = PyIntField.invalid) :
    (compute_priority_for_lead_row row w now).2 = 9999
    ∧ sla_score_of (compute_priority_for_lead_row row w now).2 = 0 := by
  have ht : (compute_priority_for_lead_row row w now).2 = 9999 := by
    show time_left_of row now = 9999
    rw [time_left_of, h]
    rfl
  refine ⟨ht, ?_⟩
  rw [ht, sla_score_of, min_eq_right (by norm_num : (72:ℚ) ≤ 9999)]
  norm_num

/-- Witness for C10 at `demoLead` with an unconvertible `sla_hours` cell. -/
theorem C10_invalid_sla_hours_witness :
    (compute_priority_for_lead_row invalidSlaLead default_weights 0).2 = 9999
    ∧ sla_score_of (compute_priority_for_lead_row invalidSlaLead default_weights 0).2 = 0 :=
  C10_invalid_sla_hours invalidSlaLead default_weights 0 rfl

end ProjectX
